import Mathlib

/-!
Verification of the metadata and type-erasure core of the distill asset import
pipeline (`src/importer/src/boxed_importer.rs`).

Modelling conventions:
* Rust byte slices / byte streams are `List Nat`.
* `Box<dyn SerdeObj>` (a type-erased handle whose runtime `TypeId` supports a
  fallible downcast) is a dependent pair over a universe of type codes with
  decidable code equality (`TypeUniv`, `Dyn`); `downcast` succeeds iff the
  handle's code equals the requested code, mirroring `TypeId` comparison.
* A Rust `panic!` is modelled by the `PanicOr.panic` constructor of the result
  carrier; `Result<T, Error>` is `Except ImportError T`.
* The external serialization crates (`ron`, `bincode`) are collaborators
  specified at their interface boundary: each importer carries its codec
  functions.  The serde-derive field semantics of `SourceMetadata` — every
  field required except `importer_type`, which is `#[serde(default)]` — is
  embedded explicitly (`SourceMetadataRepr.toMetadata`).
-/

set_option autoImplicit false

namespace Distill

/-- Opaque 128-bit asset identifier (`atelier_core::AssetUuid`), treated as an
opaque fixed-width identifier by this core. -/
structure AssetUuid where
  uuid : Nat
deriving DecidableEq, Repr

/-- Opaque identifier of a Rust asset type (`atelier_core::AssetTypeId`). -/
structure AssetTypeId where
  uuid : Nat
deriving DecidableEq, Repr

/-- The `Default` value of `AssetTypeId` is the all-zero identifier. -/
instance : Inhabited AssetTypeId := ⟨⟨0⟩⟩

/-- Reference to an asset, by id or by path (`atelier_core::AssetRef`). -/
inductive AssetRef where
  | uuid (id : AssetUuid)
  | path (p : String)
deriving DecidableEq, Repr

/-- Compression scheme tag (`atelier_core::CompressionType`), opaque here. -/
inductive CompressionType where
  | uncompressed
  | lz4
deriving DecidableEq, Repr

/-- Serializable metadata for an artifact (struct `ArtifactMetadata`). -/
structure ArtifactMetadata where
  hash : Nat
  id : AssetUuid
  build_deps : List AssetRef
  load_deps : List AssetRef
  compression : CompressionType
  compressed_size : Option Nat
  uncompressed_size : Option Nat
  type_id : AssetTypeId
deriving DecidableEq, Repr

/-- Serializable metadata for an asset (struct `AssetMetadata`). -/
structure AssetMetadata where
  id : AssetUuid
  search_tags : List (String × Option String)
  build_pipeline : Option AssetUuid
  artifact : Option ArtifactMetadata
deriving DecidableEq, Repr

/-- Version of the SourceMetadata struct (`SOURCEMETADATA_VERSION`). -/
def SOURCEMETADATA_VERSION : Nat := 1

/-- In-memory representation of the .meta file (struct `SourceMetadata<Options, State>`). -/
structure SourceMetadata (Options State : Type) where
  version : Nat
  import_hash : Option Nat
  importer_version : Nat
  importer_type : AssetTypeId
  importer_options : Options
  importer_state : State
  assets : List AssetMetadata

/-- Modelled from the spec: `ImporterValue` is defined in the importer crate
outside the visible core; §4.2 says `import` produces zero or more assets. -/
structure ImporterValue where
  assets : List AssetMetadata
deriving DecidableEq, Repr

/-- Modelled from the spec: the importer crate's error enum (`crate::error`) is
outside the visible core.  §7's taxonomy has decoding errors (from the
serialization collaborators, wrapped by the `?` conversion) and
importer-domain errors (from the concrete `import` operation). -/
inductive ImportError where
  | decodeError (msg : String)
  | importerError (msg : String)
deriving DecidableEq, Repr

/-- Result carrier distinguishing a Rust `panic!` (unrecoverable abort) from a
normally returned value. -/
inductive PanicOr (α : Type) where
  | panic (msg : String)
  | ok (val : α)

/-- A universe of runtime type codes: the model of Rust's `TypeId` world.  Each
code denotes a concrete type; codes are decidably comparable, as `TypeId`s
are.  The development is parametric in this universe, so theorems quantify
over every concrete importer type. -/
structure TypeUniv where
  Code : Type
  deq : DecidableEq Code
  denote : Code → Type

/-- A type-erased handle (`Box<dyn SerdeObj>`): a runtime type code paired with
a value of the denoted type. -/
abbrev Dyn (U : TypeUniv) : Type := Sigma U.denote

/-- Fallible downcast of an erased handle to the concrete type denoted by code
`c`: succeeds iff the handle's runtime code equals `c` (Rust
`Box<dyn Any>::downcast`, which returns the original box on failure). -/
def downcast (U : TypeUniv) (c : U.Code) (d : Dyn U) : Except (Dyn U) (U.denote c) :=
  match U.deq d.1 c with
  | .isTrue h => .ok (h ▸ d.2)
  | .isFalse _ => .error d

/-- Field-presence view of a parsed metadata record: the serde data model sees
each struct field as present (`some`) or absent (`none`) in the input text. -/
structure SourceMetadataRepr (Options State : Type) where
  version : Option Nat
  import_hash : Option (Option Nat)
  importer_version : Option Nat
  importer_type : Option AssetTypeId
  importer_options : Option Options
  importer_state : Option State
  assets : Option (List AssetMetadata)

/-- The serde-derived `Deserialize` for `SourceMetadata`: every field is
required except `importer_type`, which is marked `#[serde(default)]` in the
source and falls back to the default `AssetTypeId` when absent. -/
def SourceMetadataRepr.toMetadata {O S : Type} (r : SourceMetadataRepr O S) :
    Except String (SourceMetadata O S) :=
  match r.version, r.import_hash, r.importer_version, r.importer_options,
      r.importer_state, r.assets with
  | some v, some ih, some iv, some io, some ist, some asl =>
      .ok { version := v, import_hash := ih, importer_version := iv,
            importer_type := r.importer_type.getD default,
            importer_options := io, importer_state := ist, assets := asl }
  | _, _, _, _, _, _ => .error "missing field"

/-- The field-presence view of a record in which every field is written out:
what serializing the record produces, since the serde-derived `Serialize`
emits every field. -/
def SourceMetadata.toRepr {O S : Type} (m : SourceMetadata O S) : SourceMetadataRepr O S :=
  { version := some m.version
    import_hash := some m.import_hash
    importer_version := some m.importer_version
    importer_type := some m.importer_type
    importer_options := some m.importer_options
    importer_state := some m.importer_state
    assets := some m.assets }

/-- A concrete importer over universe `U` (trait `Importer` together with the
serde bounds `O: Serialize + Deserialize + Default + Clone`,
`S: Serialize + Deserialize + Default` of the blanket `BoxedImporter` impl).
`importOp` models `Importer::import`: it consumes the source bytes and the
options by value, and returns the produced value together with the final
state (the Rust `&mut S` out-parameter).  `metadataParse` / `metadataSer`
model the `ron` text codec's generic parsing stage for the record shape, and
`optionsBincodeDe` / `stateBincodeDe` the `bincode` binary codec. -/
structure Importer (U : TypeUniv) where
  optionsCode : U.Code
  stateCode : U.Code
  version : Nat
  defaultOptions : U.denote optionsCode
  defaultState : U.denote stateCode
  importOp : List Nat → U.denote optionsCode → U.denote stateCode →
      Except ImportError (ImporterValue × U.denote stateCode)
  metadataParse : List Nat →
      Except String (SourceMetadataRepr (U.denote optionsCode) (U.denote stateCode))
  metadataSer : SourceMetadata (U.denote optionsCode) (U.denote stateCode) → List Nat
  optionsBincodeDe : List Nat → Except String (U.denote optionsCode)
  stateBincodeDe : List Nat → Except String (U.denote stateCode)

/-- Trait-object result of `import_boxed` (struct `BoxedImporterValue`). -/
structure BoxedImporterValue (U : TypeUniv) where
  value : ImporterValue
  options : Dyn U
  state : Dyn U

/-- `BoxedImporter::import_boxed` of the blanket impl: downcast the erased
state (panicking on mismatch), downcast the erased options (panicking on
mismatch), run the concrete `import` with a clone of the options and the
state by `&mut`, propagate its error with `?`, and re-erase the options and
the final state. -/
def import_boxed (U : TypeUniv) (imp : Importer U) (source : List Nat)
    (options state : Dyn U) : PanicOr (Except ImportError (BoxedImporterValue U)) :=
  match downcast U imp.stateCode state with
  | .error _ => .panic "Failed to downcast Importer::State"
  | .ok s =>
      match downcast U imp.optionsCode options with
      | .error _ => .panic "Failed to downcast Importer::Options"
      | .ok o =>
          match imp.importOp source o s with
          | .error e => .ok (.error e)
          | .ok r => .ok (.ok { value := r.1
                                options := ⟨imp.optionsCode, o⟩
                                state := ⟨imp.stateCode, r.2⟩ })

/-- `BoxedImporter::default_options`: a freshly erased default options value. -/
def default_options (U : TypeUniv) (imp : Importer U) : Dyn U :=
  ⟨imp.optionsCode, imp.defaultOptions⟩

/-- `BoxedImporter::default_state`: a freshly erased default state value. -/
def default_state (U : TypeUniv) (imp : Importer U) : Dyn U :=
  ⟨imp.stateCode, imp.defaultState⟩

/-- `ron::de::from_bytes::<SourceMetadata<O, S>>`: the generic text parse
followed by the serde-derived field assembly. -/
def ron_from_bytes (U : TypeUniv) (imp : Importer U) (bytes : List Nat) :
    Except String (SourceMetadata (U.denote imp.optionsCode) (U.denote imp.stateCode)) :=
  (imp.metadataParse bytes).bind SourceMetadataRepr.toMetadata

/-- `BoxedImporter::deserialize_metadata`: parse the full record with the
concrete types via `ron`, converting a parse error into the crate error by
`?`, then re-erase just the options and state fields. -/
def deserialize_metadata (U : TypeUniv) (imp : Importer U) (bytes : List Nat) :
    PanicOr (Except ImportError (SourceMetadata (Dyn U) (Dyn U))) :=
  .ok <| match ron_from_bytes U imp bytes with
  | .error e => .error (.decodeError e)
  | .ok m => .ok { version := m.version
                   import_hash := m.import_hash
                   importer_version := m.importer_version
                   importer_type := m.importer_type
                   importer_options := ⟨imp.optionsCode, m.importer_options⟩
                   importer_state := ⟨imp.stateCode, m.importer_state⟩
                   assets := m.assets }

/-- `BoxedImporter::deserialize_options`: parse the binary cache encoding of
the options alone and erase the result. -/
def deserialize_options (U : TypeUniv) (imp : Importer U) (bytes : List Nat) :
    PanicOr (Except ImportError (Dyn U)) :=
  .ok <| match imp.optionsBincodeDe bytes with
  | .error e => .error (.decodeError e)
  | .ok o => .ok ⟨imp.optionsCode, o⟩

/-- `BoxedImporter::deserialize_state`: parse the binary cache encoding of the
state alone and erase the result. -/
def deserialize_state (U : TypeUniv) (imp : Importer U) (bytes : List Nat) :
    PanicOr (Except ImportError (Dyn U)) :=
  .ok <| match imp.stateBincodeDe bytes with
  | .error e => .error (.decodeError e)
  | .ok s => .ok ⟨imp.stateCode, s⟩

/-- A registry entry (struct `SourceFileImporter`): an extension string and a
constructor for a fresh erased importer. -/
structure SourceFileImporter (U : TypeUniv) where
  extension : List Char
  instantiator : Unit → Importer U

/-- Rust `str::trim_start_matches(".")` at the registry's call site: repeatedly
strip the pattern `"."` from the front while it matches. -/
def trim_start_matches_dot : List Char → List Char
  | [] => []
  | c :: cs => if c = '.' then trim_start_matches_dot cs else c :: cs

/-- `get_source_importers`: enumerate the registered `(extension, importer)`
pairs, trimming leading `'.'` from each extension and invoking each entry's
instantiator. -/
def get_source_importers (U : TypeUniv) (registry : List (SourceFileImporter U)) :
    List (List Char × Importer U) :=
  registry.map fun s => (trim_start_matches_dot s.extension, s.instantiator ())

/-! ### A concrete universe and importers, used to witness the theorems -/

/-- Denotation of the demo code universe: code 0 is `Nat`, code 1 is `Bool`,
all other codes are `Unit`. -/
def demoDenote : Nat → Type
  | 0 => Nat
  | 1 => Bool
  | _ => Unit

/-- A concrete type universe with `Nat` codes. -/
def demoUniv : TypeUniv where
  Code := Nat
  deq := fun a b => Nat.decEq a b
  denote := demoDenote

/-- A concrete text-codec parse for `SourceMetadata Nat Nat`: a 7-number list
is a full record, `[42]` is an old-style record missing the `importer_type`
field, and anything else is malformed. -/
def demoParse (bytes : List Nat) : Except String (SourceMetadataRepr Nat Nat) :=
  match bytes with
  | [v, hf, hv, iv, it, io, ist] =>
      .ok { version := some v
            import_hash := some (if hf = 1 then some hv else none)
            importer_version := some iv
            importer_type := some ⟨it⟩
            importer_options := some io
            importer_state := some ist
            assets := some [] }
  | [42] =>
      .ok { version := some 1
            import_hash := some none
            importer_version := some 1
            importer_type := none
            importer_options := some 5
            importer_state := some 6
            assets := some [] }
  | _ => .error "malformed"

/-- The matching serializer for `demoParse` (for records with no assets). -/
def demoSer (m : SourceMetadata Nat Nat) : List Nat :=
  [m.version,
   match m.import_hash with | some _ => 1 | none => 0,
   m.import_hash.getD 0,
   m.importer_version,
   m.importer_type.uuid,
   m.importer_options,
   m.importer_state]

/-- A concrete binary-codec parse for a single `Nat`. -/
def demoBincodeDe (bytes : List Nat) : Except String Nat :=
  match bytes with
  | [n] => .ok n
  | _ => .error "bincode malformed"

/-- A concrete importer over `demoUniv` whose options and state are both `Nat`
(codes 0): importing always succeeds with no assets and increments the state. -/
def demoImporter : Importer demoUniv where
  optionsCode := (0 : Nat)
  stateCode := (0 : Nat)
  version := 1
  defaultOptions := (0 : Nat)
  defaultState := (0 : Nat)
  importOp := fun (_ : List Nat) (_ : Nat) (s : Nat) => .ok ({ assets := [] }, s + 1)
  metadataParse := demoParse
  metadataSer := demoSer
  optionsBincodeDe := demoBincodeDe
  stateBincodeDe := demoBincodeDe

/-- A concrete importer over `demoUniv` whose import operation always fails
with an importer-domain error. -/
def demoFailImporter : Importer demoUniv where
  optionsCode := (0 : Nat)
  stateCode := (0 : Nat)
  version := 1
  defaultOptions := (0 : Nat)
  defaultState := (0 : Nat)
  importOp := fun (_ : List Nat) (_ : Nat) (_ : Nat) =>
    .error (.importerError "unsupported source content")
  metadataParse := demoParse
  metadataSer := demoSer
  optionsBincodeDe := demoBincodeDe
  stateBincodeDe := demoBincodeDe

/-! ### Helper lemmas -/

/-- Downcasting an erased handle to the code it was erased at succeeds with the
original value. -/
theorem downcast_mk_eq (U : TypeUniv) (c : U.Code) (v : U.denote c) :
    downcast U c ⟨c, v⟩ = .ok v := by
  unfold downcast
  cases h : U.deq c c with
  | isTrue hcc => rfl
  | isFalse hcc => exact absurd rfl hcc

/-- Downcasting an erased handle to a code different from its runtime code
fails, returning the handle. -/
theorem downcast_mk_ne (U : TypeUniv) (c : U.Code) (d : Dyn U) (h : d.1 ≠ c) :
    downcast U c d = .error d := by
  unfold downcast
  cases hd : U.deq d.1 c with
  | isTrue hcc => exact absurd hcc h
  | isFalse hcc => rfl

/-- Behaviour of `import_boxed` on correctly typed erased handles: it is the
concrete `import`, with its result repackaged by erasure. -/
theorem import_boxed_typed_eq (U : TypeUniv) (imp : Importer U) (source : List Nat)
    (o : U.denote imp.optionsCode) (s : U.denote imp.stateCode) :
    import_boxed U imp source ⟨imp.optionsCode, o⟩ ⟨imp.stateCode, s⟩ =
      .ok ((imp.importOp source o s).map fun r =>
        { value := r.1
          options := ⟨imp.optionsCode, o⟩
          state := ⟨imp.stateCode, r.2⟩ }) := by
  cases h : imp.importOp source o s with
  | error e => simp [import_boxed, downcast_mk_eq, h, Except.map]
  | ok r => simp [import_boxed, downcast_mk_eq, h, Except.map]

/-- If the erased state's runtime code differs from the importer's state code,
`import_boxed` panics at the state downcast. -/
theorem import_boxed_state_mismatch (U : TypeUniv) (imp : Importer U) (source : List Nat)
    (options state : Dyn U) (h : state.1 ≠ imp.stateCode) :
    import_boxed U imp source options state = .panic "Failed to downcast Importer::State" := by
  unfold import_boxed
  rw [downcast_mk_ne U _ _ h]

/-- If the erased state is well typed but the erased options' runtime code
differs from the importer's options code, `import_boxed` panics at the options
downcast. -/
theorem import_boxed_options_mismatch (U : TypeUniv) (imp : Importer U) (source : List Nat)
    (options : Dyn U) (sv : U.denote imp.stateCode) (h : options.1 ≠ imp.optionsCode) :
    import_boxed U imp source options ⟨imp.stateCode, sv⟩ =
      .panic "Failed to downcast Importer::Options" := by
  unfold import_boxed
  rw [downcast_mk_eq, downcast_mk_ne U _ _ h]

/-- When both erased handles carry the importer's own codes, `import_boxed`
never panics. -/
theorem import_boxed_matched_no_panic (U : TypeUniv) (imp : Importer U) (source : List Nat)
    (options state : Dyn U) (ho : options.1 = imp.optionsCode)
    (hs : state.1 = imp.stateCode) :
    ∀ msg, import_boxed U imp source options state ≠ .panic msg := by
  obtain ⟨oc, ov⟩ := options
  obtain ⟨sc, sv⟩ := state
  dsimp only at ho hs
  subst ho
  subst hs
  intro msg h
  rw [import_boxed_typed_eq] at h
  exact PanicOr.noConfusion h

/-! ### Claims -/

/-- Claim C1: for every concrete importer (any type universe, any importer over
it) and every source stream, calling `import_boxed` with erased options and
state handles whose runtime types match the importer's `Options` and `State`
returns exactly the result of the concrete `import` call on the downcast
values: the same `ImporterValue`, the same final state, and the same options,
each re-erased at the importer's own codes. -/
theorem import_boxed_refines_import (U : TypeUniv) (imp : Importer U) (source : List Nat)
    (o : U.denote imp.optionsCode) (s : U.denote imp.stateCode) :
    import_boxed U imp source ⟨imp.optionsCode, o⟩ ⟨imp.stateCode, s⟩ =
      .ok ((imp.importOp source o s).map fun r =>
        { value := r.1
          options := ⟨imp.optionsCode, o⟩
          state := ⟨imp.stateCode, r.2⟩ }) :=
  import_boxed_typed_eq U imp source o s

/-- Claim C2: `import_boxed` terminates with a panic (for some panic message)
iff the erased state's runtime type or the erased options' runtime type
mismatches the importer's concrete `State` or `Options` type; in particular a
mismatch never produces a returned value (recoverable or not), and when both
types match, the panic branches are unreachable. -/
theorem import_boxed_panic_iff_mismatch (U : TypeUniv) (imp : Importer U) (source : List Nat)
    (options state : Dyn U) :
    (∃ msg, import_boxed U imp source options state = .panic msg) ↔
      (state.1 ≠ imp.stateCode ∨ options.1 ≠ imp.optionsCode) := by
  constructor
  · rintro ⟨msg, h⟩
    by_contra hc
    push_neg at hc
    exact import_boxed_matched_no_panic U imp source options state hc.2 hc.1 msg h
  · intro h
    rcases h with h | h
    · exact ⟨_, import_boxed_state_mismatch U imp source options state h⟩
    · by_cases hs : state.1 = imp.stateCode
      · obtain ⟨sc, sv⟩ := state
        dsimp only at hs
        subst hs
        exact ⟨_, import_boxed_options_mismatch U imp source options sv h⟩
      · exact ⟨_, import_boxed_state_mismatch U imp source options state hs⟩

/-- Claim C7: with correctly typed erased options and state, if the concrete
`import` operation fails with an importer-domain error, `import_boxed` returns
that same error value unchanged as its `Result` failure. -/
theorem import_boxed_propagates_importer_error (U : TypeUniv) (imp : Importer U)
    (source : List Nat) (o : U.denote imp.optionsCode) (s : U.denote imp.stateCode)
    (e : ImportError) (h : imp.importOp source o s = .error e) :
    import_boxed U imp source ⟨imp.optionsCode, o⟩ ⟨imp.stateCode, s⟩ = .ok (.error e) := by
  rw [import_boxed_typed_eq, h]
  rfl

/-- Witness for C7 at a concrete importer whose `import` always fails. -/
theorem import_boxed_propagates_importer_error_witness :
    import_boxed demoUniv demoFailImporter [] ⟨(0 : Nat), (5 : Nat)⟩ ⟨(0 : Nat), (6 : Nat)⟩ =
      .ok (.error (.importerError "unsupported source content")) :=
  import_boxed_propagates_importer_error demoUniv demoFailImporter [] (5 : Nat) (6 : Nat)
    (.importerError "unsupported source content") rfl

/-- Claim C9: every successful `import_boxed` call returns in its
`BoxedImporterValue` exactly the erased options handle it was given: the
concrete `import` receives a clone of the options by value, so the options
cannot be mutated. -/
theorem import_boxed_returns_input_options (U : TypeUniv) (imp : Importer U)
    (source : List Nat) (options state : Dyn U) (r : BoxedImporterValue U)
    (h : import_boxed U imp source options state = .ok (.ok r)) :
    r.options = options := by
  by_cases hs : state.1 = imp.stateCode
  · by_cases ho : options.1 = imp.optionsCode
    · obtain ⟨oc, ov⟩ := options
      obtain ⟨sc, sv⟩ := state
      dsimp only at hs ho
      subst hs
      subst ho
      rw [import_boxed_typed_eq] at h
      cases himp : imp.importOp source ov sv with
      | error e =>
          rw [himp] at h
          exact absurd h (by simp [Except.map])
      | ok rr =>
          rw [himp] at h
          simp only [Except.map] at h
          injection h with h1
          injection h1 with h2
          rw [← h2]
    · obtain ⟨sc, sv⟩ := state
      dsimp only at hs
      subst hs
      rw [import_boxed_options_mismatch U imp source options sv ho] at h
      exact PanicOr.noConfusion h
  · rw [import_boxed_state_mismatch U imp source options state hs] at h
    exact PanicOr.noConfusion h

/-- Witness for C9 at a concrete successful import. -/
theorem import_boxed_returns_input_options_witness :
    ({ value := { assets := [] }
       options := ⟨(0 : Nat), (5 : Nat)⟩
       state := ⟨(0 : Nat), (7 : Nat)⟩ } : BoxedImporterValue demoUniv).options =
      ⟨(0 : Nat), (5 : Nat)⟩ :=
  import_boxed_returns_input_options demoUniv demoImporter [] ⟨(0 : Nat), (5 : Nat)⟩
    ⟨(0 : Nat), (6 : Nat)⟩ _ rfl

/-- Claim C3: for every byte slice on which the underlying decoder fails, each
of `deserialize_metadata` (metadata-file text encoding), `deserialize_options`
and `deserialize_state` (binary cache encoding) returns the decoding error as
an explicit `Result` failure — a normally returned `.error`, never a panic. -/
theorem deserialize_decode_errors_propagate (U : TypeUniv) (imp : Importer U) :
    (∀ bytes e, ron_from_bytes U imp bytes = .error e →
        deserialize_metadata U imp bytes = .ok (.error (.decodeError e))) ∧
    (∀ bytes e, imp.optionsBincodeDe bytes = .error e →
        deserialize_options U imp bytes = .ok (.error (.decodeError e))) ∧
    (∀ bytes e, imp.stateBincodeDe bytes = .error e →
        deserialize_state U imp bytes = .ok (.error (.decodeError e))) := by
  refine ⟨fun bytes e h => ?_, fun bytes e h => ?_, fun bytes e h => ?_⟩
  · unfold deserialize_metadata
    rw [h]
  · unfold deserialize_options
    rw [h]
  · unfold deserialize_state
    rw [h]

/-- Witness for C3 at concrete malformed inputs. -/
theorem deserialize_decode_errors_propagate_witness :
    deserialize_metadata demoUniv demoImporter [] = .ok (.error (.decodeError "malformed")) ∧
    deserialize_options demoUniv demoImporter [] =
      .ok (.error (.decodeError "bincode malformed")) ∧
    deserialize_state demoUniv demoImporter [] =
      .ok (.error (.decodeError "bincode malformed")) :=
  ⟨(deserialize_decode_errors_propagate demoUniv demoImporter).1 [] "malformed" rfl,
   (deserialize_decode_errors_propagate demoUniv demoImporter).2.1 [] "bincode malformed" rfl,
   (deserialize_decode_errors_propagate demoUniv demoImporter).2.2 [] "bincode malformed" rfl⟩

/-- Claim C5: whenever the `ron` parse of the metadata bytes succeeds with a
concrete record, `deserialize_metadata` succeeds and returns that record with
`version`, `import_hash`, `importer_version`, `importer_type` and `assets`
copied unchanged; only `importer_options` and `importer_state` are re-erased
at the importer's codes. -/
theorem deserialize_metadata_frame (U : TypeUniv) (imp : Importer U) (bytes : List Nat)
    (m : SourceMetadata (U.denote imp.optionsCode) (U.denote imp.stateCode))
    (h : ron_from_bytes U imp bytes = .ok m) :
    deserialize_metadata U imp bytes = .ok (.ok
      { version := m.version
        import_hash := m.import_hash
        importer_version := m.importer_version
        importer_type := m.importer_type
        importer_options := ⟨imp.optionsCode, m.importer_options⟩
        importer_state := ⟨imp.stateCode, m.importer_state⟩
        assets := m.assets }) := by
  unfold deserialize_metadata
  rw [h]

/-- Witness for C5 at a concrete well-formed record. -/
theorem deserialize_metadata_frame_witness :
    deserialize_metadata demoUniv demoImporter [1, 1, 3, 2, 4, 5, 6] = .ok (.ok
      { version := 1
        import_hash := some 3
        importer_version := 2
        importer_type := ⟨4⟩
        importer_options := ⟨(0 : Nat), (5 : Nat)⟩
        importer_state := ⟨(0 : Nat), (6 : Nat)⟩
        assets := [] }) :=
  deserialize_metadata_frame demoUniv demoImporter [1, 1, 3, 2, 4, 5, 6]
    { version := 1
      import_hash := some 3
      importer_version := 2
      importer_type := ⟨4⟩
      importer_options := (5 : Nat)
      importer_state := (6 : Nat)
      assets := [] } rfl

/-- Claim C6: for any record whose `Options`/`State` satisfy the
Serializable-Object Capability — stated as the record-level round-trip of the
text codec, `metadataParse (metadataSer m) = .ok m.toRepr`, which serde derives
from the field codecs — serializing to the metadata-file encoding and then
deserializing via `deserialize_metadata` succeeds and yields a record equal to
the original in every field, the options and state re-erased at the importer's
own codes. -/
theorem metadata_round_trip (U : TypeUniv) (imp : Importer U)
    (m : SourceMetadata (U.denote imp.optionsCode) (U.denote imp.stateCode))
    (hrt : imp.metadataParse (imp.metadataSer m) = .ok m.toRepr) :
    deserialize_metadata U imp (imp.metadataSer m) = .ok (.ok
      { version := m.version
        import_hash := m.import_hash
        importer_version := m.importer_version
        importer_type := m.importer_type
        importer_options := ⟨imp.optionsCode, m.importer_options⟩
        importer_state := ⟨imp.stateCode, m.importer_state⟩
        assets := m.assets }) := by
  unfold deserialize_metadata ron_from_bytes
  rw [hrt]
  rfl

/-- Witness for C6 at a concrete record round-tripped through the demo codec. -/
theorem metadata_round_trip_witness :
    deserialize_metadata demoUniv demoImporter
        (demoImporter.metadataSer
          { version := 1
            import_hash := some 3
            importer_version := 2
            importer_type := ⟨4⟩
            importer_options := (5 : Nat)
            importer_state := (6 : Nat)
            assets := [] }) = .ok (.ok
      { version := 1
        import_hash := some 3
        importer_version := 2
        importer_type := ⟨4⟩
        importer_options := ⟨(0 : Nat), (5 : Nat)⟩
        importer_state := ⟨(0 : Nat), (6 : Nat)⟩
        assets := [] }) :=
  metadata_round_trip demoUniv demoImporter
    { version := 1
      import_hash := some 3
      importer_version := 2
      importer_type := ⟨4⟩
      importer_options := (5 : Nat)
      importer_state := (6 : Nat)
      assets := [] } rfl

/-- Claim C8: a metadata byte sequence that parses with every field present
except `importer_type` (as written before that field existed) deserializes
successfully, and the resulting record's `importer_type` is the default
`AssetTypeId`. -/
theorem deserialize_metadata_defaults_missing_importer_type (U : TypeUniv) (imp : Importer U)
    (bytes : List Nat)
    (r : SourceMetadataRepr (U.denote imp.optionsCode) (U.denote imp.stateCode))
    (v : Nat) (ih : Option Nat) (iv : Nat) (io : U.denote imp.optionsCode)
    (ist : U.denote imp.stateCode) (asl : List AssetMetadata)
    (hp : imp.metadataParse bytes = .ok r)
    (ht : r.importer_type = none)
    (hv : r.version = some v) (hih : r.import_hash = some ih)
    (hiv : r.importer_version = some iv) (hio : r.importer_options = some io)
    (hist : r.importer_state = some ist) (hasl : r.assets = some asl) :
    deserialize_metadata U imp bytes = .ok (.ok
      { version := v
        import_hash := ih
        importer_version := iv
        importer_type := default
        importer_options := ⟨imp.optionsCode, io⟩
        importer_state := ⟨imp.stateCode, ist⟩
        assets := asl }) := by
  obtain ⟨rv, rih, riv, rit, rio, rist, rasl⟩ := r
  dsimp only at ht hv hih hiv hio hist hasl
  subst ht hv hih hiv hio hist hasl
  unfold deserialize_metadata ron_from_bytes
  rw [hp]
  rfl

/-- Witness for C8 at a concrete old-style record missing `importer_type`. -/
theorem deserialize_metadata_defaults_missing_importer_type_witness :
    deserialize_metadata demoUniv demoImporter [42] = .ok (.ok
      { version := 1
        import_hash := none
        importer_version := 1
        importer_type := default
        importer_options := ⟨(0 : Nat), (5 : Nat)⟩
        importer_state := ⟨(0 : Nat), (6 : Nat)⟩
        assets := [] }) :=
  deserialize_metadata_defaults_missing_importer_type demoUniv demoImporter [42]
    { version := some 1
      import_hash := some none
      importer_version := some 1
      importer_type := none
      importer_options := some (5 : Nat)
      importer_state := some (6 : Nat)
      assets := some [] }
    1 none 1 (5 : Nat) (6 : Nat) [] rfl rfl rfl rfl rfl rfl rfl rfl

/-- Claim C10: `deserialize_metadata` validates neither `version` nor
`importer_version`: any structurally well-formed input (all required fields
present) parses successfully whatever the written `version` value, and the
caller receives `version` and `importer_version` exactly as written. -/
theorem deserialize_metadata_no_version_validation (U : TypeUniv) (imp : Importer U)
    (bytes : List Nat)
    (r : SourceMetadataRepr (U.denote imp.optionsCode) (U.denote imp.stateCode))
    (v : Nat) (ih : Option Nat) (iv : Nat) (io : U.denote imp.optionsCode)
    (ist : U.denote imp.stateCode) (asl : List AssetMetadata)
    (hp : imp.metadataParse bytes = .ok r)
    (hv : r.version = some v) (hih : r.import_hash = some ih)
    (hiv : r.importer_version = some iv) (hio : r.importer_options = some io)
    (hist : r.importer_state = some ist) (hasl : r.assets = some asl) :
    ∃ md, deserialize_metadata U imp bytes = .ok (.ok md) ∧
      md.version = v ∧ md.importer_version = iv := by
  obtain ⟨rv, rih, riv, rit, rio, rist, rasl⟩ := r
  dsimp only at hv hih hiv hio hist hasl
  subst hv hih hiv hio hist hasl
  refine ⟨{ version := v
            import_hash := ih
            importer_version := iv
            importer_type := rit.getD default
            importer_options := ⟨imp.optionsCode, io⟩
            importer_state := ⟨imp.stateCode, ist⟩
            assets := asl }, ?_, rfl, rfl⟩
  unfold deserialize_metadata ron_from_bytes
  rw [hp]
  rfl

/-- Witness for C10 at a concrete record whose `version` is 7, not the current
schema version. -/
theorem deserialize_metadata_no_version_validation_witness :
    (7 : Nat) ≠ SOURCEMETADATA_VERSION ∧
    ∃ md, deserialize_metadata demoUniv demoImporter [7, 0, 0, 9, 4, 5, 6] = .ok (.ok md) ∧
      md.version = 7 ∧ md.importer_version = 9 :=
  ⟨by decide,
   deserialize_metadata_no_version_validation demoUniv demoImporter [7, 0, 0, 9, 4, 5, 6]
     { version := some 7
       import_hash := some none
       importer_version := some 9
       importer_type := some ⟨4⟩
       importer_options := some (5 : Nat)
       importer_state := some (6 : Nat)
       assets := some [] }
     7 none 9 (5 : Nat) (6 : Nat) [] rfl rfl rfl rfl rfl rfl rfl⟩

/-! ### Registry claims -/

/-- The normalization in C4's wording: strip a single leading `'.'` separator
when present. -/
def strip_one_leading_dot : List Char → List Char
  | [] => []
  | c :: cs => if c = '.' then cs else c :: cs

/-- `trim_start_matches(".")` strips all leading `'.'` characters. -/
theorem trim_start_matches_dot_eq_dropWhile (l : List Char) :
    trim_start_matches_dot l = l.dropWhile (fun c => c == '.') := by
  induction l with
  | nil => rfl
  | cons c cs ih =>
      by_cases h : c = '.'
      · subst h
        simpa [trim_start_matches_dot, List.dropWhile_cons] using ih
      · simp [trim_start_matches_dot, List.dropWhile_cons, h]

/-- Counterexample to C4 as stated: a registration of `"..png"` is observable
as `"png"` — the registry strips every leading `'.'`, not just one, so the
yielded extension differs from the registered string with a single leading
separator stripped (which would be `".png"`). -/
theorem get_source_importers_counterexample :
    (get_source_importers demoUniv
        [{ extension := "..png".data, instantiator := fun _ => demoImporter }]).map Prod.fst =
      ["png".data] ∧
    strip_one_leading_dot "..png".data = ".png".data ∧
    "png".data ≠ ".png".data := by
  refine ⟨rfl, rfl, ?_⟩
  decide

/-- Claim C4 (amended): enumerating the registry yields exactly one pair per
contributed registration, in order, where each yielded extension is the
registered extension with all leading `'.'` characters stripped, and each
yielded importer is the fresh instance produced by invoking that
registration's constructor. -/
theorem get_source_importers_enumerates (U : TypeUniv)
    (registry : List (SourceFileImporter U)) :
    get_source_importers U registry =
      registry.map fun s => (s.extension.dropWhile (fun c => c == '.'), s.instantiator ()) := by
  induction registry with
  | nil => rfl
  | cons s rest ih =>
      simp only [get_source_importers, List.map] at ih ⊢
      rw [ih, trim_start_matches_dot_eq_dropWhile]

end Distill
